import Mathlib

/-!
Verification development for the e-commerce chatbot routing core
(`src/agents/orchestrator.py`, `src/agents/order_agent.py`,
`src/agents/rag_agent.py`, `src/database/products.py`).

The Python code is shallowly embedded: pure catalog/cart/tool logic becomes
Lean functions over explicit data; the LLM-backed agent calls (opaque language
capability) become oracle parameters chosen adversarially in the theorems.
Monetary amounts (Python floats such as `2499.99`) are modelled as exact
integer cents (`Nat`), which preserves all comparisons and arithmetic the
claims need.
-/

namespace EcommerceBot

/-! ## Data model (`src/schema.py`, `src/database/products.py`) -/

/-- A catalog product record, as stored in `data/products.json` and returned by
`ProductCatalog.get_product`.  `price` is in cents. -/
structure Product where
  product_id : String
  name : String
  description : String
  price : Nat
  category : String
  stock_status : String
deriving DecidableEq, Repr

/-- The product catalog: `ProductCatalog._products`, an ordered list. -/
abbrev Catalog := List Product

/-- A cart line item, as built by the `add_to_cart` tool
(`order_agent.py` lines 131-138). `unit_price` is in cents. -/
structure CartItem where
  product_id : String
  product_name : String
  quantity : Nat
  unit_price : Nat
deriving DecidableEq, Repr

/-- The shared shopping cart (`Orchestrator._cart`, aliased by
`OrderAgent.cart`): an ordered list of line items. -/
abbrev Cart := List CartItem

/-- `ProductCatalog.get_product`: first product whose `product_id` matches. -/
def getProduct (catalog : Catalog) (product_id : String) : Option Product :=
  catalog.find? (fun p => p.product_id == product_id)

/-- Python's `str.lower()`, character by character. -/
def lowerString (s : String) : String := ⟨s.data.map Char.toLower⟩

/-- `ProductCatalog.get_product_by_id_or_name`: exact ID lookup first, then
exact case-insensitive name match. -/
def getProductByIdOrName (catalog : Catalog) (query : String) : Option Product :=
  match getProduct catalog query with
  | some p => some p
  | none => catalog.find? (fun p => lowerString p.name == lowerString query)

/-- `ProductCatalog.is_available`: product exists and its stock status is
`in_stock` or `low_stock`. -/
def isAvailable (catalog : Catalog) (product_id : String) : Bool :=
  match getProduct catalog product_id with
  | none => false
  | some p => p.stock_status == "in_stock" || p.stock_status == "low_stock"

/-! ## Order-agent cart tools (`src/agents/order_agent.py`) -/

/-- Outcome of the `add_to_cart` tool.  The Python tool returns a formatted
string per branch; each constructor carries exactly the data interpolated into
that branch's string. -/
inductive AddOutcome where
  /-- "Product {product_id} not found. ..." -/
  | notFound (product_id : String)
  /-- "Sorry, {name} (ID: {product_id}) is currently out of stock. ..." -/
  | outOfStock (product_id : String) (name : String)
  /-- "✓ Updated cart: ..." (existing line's quantity overwritten). -/
  | updated (product_id : String) (name : String) (quantity : Nat)
      (subtotal : Nat) (lowStockNote : Bool)
  /-- "✓ Added to cart: ..." (new line appended). -/
  | added (product_id : String) (name : String) (quantity : Nat)
      (price : Nat) (subtotal : Nat) (stock_status : String) (lowStockNote : Bool)
deriving DecidableEq, Repr

/-- The in-place quantity overwrite of the first cart line matching
`product_id` (`existing_item["quantity"] = quantity`). -/
def updateFirstQuantity : Cart → String → Nat → Cart
  | [], _, _ => []
  | item :: rest, product_id, quantity =>
    if item.product_id == product_id then
      { item with quantity := quantity } :: rest
    else
      item :: updateFirstQuantity rest product_id quantity

/-- The `add_to_cart` tool (`order_agent.py` lines 79-152): validates the
product against the catalog, then replaces the quantity of an existing line or
appends a new line.  Returns the outcome and the new cart. -/
def addToCart (catalog : Catalog) (cart : Cart) (product_id : String)
    (quantity : Nat) : AddOutcome × Cart :=
  match getProduct catalog product_id with
  | none => (.notFound product_id, cart)
  | some product =>
    if isAvailable catalog product_id then
      let low := product.stock_status == "low_stock"
      match cart.find? (fun item => item.product_id == product_id) with
      | some _ =>
        (.updated product_id product.name quantity (product.price * quantity) low,
         updateFirstQuantity cart product_id quantity)
      | none =>
        (.added product_id product.name quantity product.price
           (product.price * quantity) product.stock_status low,
         cart ++ [⟨product_id, product.name, quantity, product.price⟩])
    else
      (.outOfStock product_id product.name, cart)

/-- Outcome of the `remove_from_cart` tool. -/
inductive RemoveOutcome where
  | removed (product_id : String) (product_name : String)
  | notInCart (product_id : String)
deriving DecidableEq, Repr

/-- Removes the first cart line matching `product_id` (`self.cart.pop(i)`). -/
def removeFirst : Cart → String → Cart
  | [], _ => []
  | item :: rest, product_id =>
    if item.product_id == product_id then rest
    else item :: removeFirst rest product_id

/-- The `remove_from_cart` tool (`order_agent.py` lines 154-181). -/
def removeFromCart (cart : Cart) (product_id : String) : RemoveOutcome × Cart :=
  match cart.find? (fun item => item.product_id == product_id) with
  | some item => (.removed product_id item.product_name, removeFirst cart product_id)
  | none => (.notInCart product_id, cart)

/-- The cart total computed by the `view_cart` tool: sum of
`quantity * unit_price` over the lines. -/
def cartTotal (cart : Cart) : Nat :=
  cart.foldl (fun total item => total + item.quantity * item.unit_price) 0

/-- Result of the item-building loop inside the `create_order` tool
(`order_agent.py` lines 245-274): either the first validation failure, or the
rebuilt order line items together with the order total. -/
inductive BuildResult where
  | notFound (product_id : String)
  | outOfStock (name : String)
  | ok (items : List CartItem) (total : Nat)
deriving DecidableEq, Repr

/-- The `create_order` loop over the cart: re-fetches each product from the
catalog, fails on the first missing or unavailable product, otherwise rebuilds
the order items (with current catalog name and price) and accumulates the
total. -/
def buildOrderItems (catalog : Catalog) : Cart → BuildResult
  | [] => .ok [] 0
  | item :: rest =>
    match getProduct catalog item.product_id with
    | none => .notFound item.product_id
    | some product =>
      if isAvailable catalog item.product_id then
        match buildOrderItems catalog rest with
        | .ok items total =>
          .ok (⟨item.product_id, product.name, item.quantity, product.price⟩ :: items)
            (product.price * item.quantity + total)
        | e => e
      else
        .outOfStock product.name

/-- Outcome of the `create_order` tool; each constructor carries the data
interpolated into the corresponding returned string. -/
inductive CreateOrderOutcome where
  /-- "Error: Your cart is empty. ..." -/
  | emptyCart
  /-- "Error: Product {product_id} not found. ..." -/
  | notFound (product_id : String)
  /-- "Error: {name} is now out of stock. ..." -/
  | outOfStock (name : String)
  /-- "✅ Order placed successfully! ..." — order persisted, cart cleared. -/
  | placed (order_id : String) (customer_name : String) (email : String)
      (shipping_address : String) (items : List CartItem) (total : Nat)
deriving DecidableEq, Repr

/-- The `create_order` tool (`order_agent.py` lines 214-299).  `new_order_id`
stands for the id minted by the persistence collaborator
(`OrderDatabase.create_order`).  On success the cart is cleared
(`self.cart.clear()`); on any failure the cart is returned unchanged. -/
def createOrderTool (catalog : Catalog) (new_order_id : String) (cart : Cart)
    (customer_name : String) (email : String) (shipping_address : String) :
    CreateOrderOutcome × Cart :=
  if cart.isEmpty then
    (.emptyCart, cart)
  else
    match buildOrderItems catalog cart with
    | .notFound product_id => (.notFound product_id, cart)
    | .outOfStock name => (.outOfStock name, cart)
    | .ok items total =>
      (.placed new_order_id customer_name email shipping_address items total, [])

/-! ## RAG-agent product retrieval (`src/agents/rag_agent.py`,
`src/database/products.py`) -/

/-- Outcome of the `retrieve_products` tool (`rag_agent.py` lines 85-134). -/
inductive RetrieveOutcome where
  /-- Detail card for an exact ID-or-name catalog match. -/
  | exact (p : Product)
  /-- "No products found matching your search." -/
  | noResults
  /-- Numbered list of similarity-ranked products. -/
  | semantic (results : List Product)
deriving DecidableEq, Repr

/-- The `retrieve_products` tool: exact catalog lookup first; only when that
misses, semantic top-k search via the vector-store collaborator (modelled as
the oracle `search`). -/
def retrieveProducts (catalog : Catalog) (search : String → Nat → List Product)
    (k : Nat) (query : String) : RetrieveOutcome :=
  match getProductByIdOrName catalog query with
  | some p => .exact p
  | none =>
    match search query k with
    | [] => .noResults
    | results => .semantic results

/-- The retrieval parameters of `RAGAgent.__init__`: `k` defaults to 5. -/
structure RAGAgentConfig where
  k : Nat := 5
deriving DecidableEq, Repr

/-! ## Response schemas (`src/schema.py`) -/

/-- One conversation message (role is `"user"` or `"assistant"`). -/
structure ChatMessage where
  role : String
  content : String
deriving DecidableEq, Repr

/-- `ProductInfo`: structured product information in a RAG response. -/
structure ProductInfo where
  product_id : String
  name : String
  description : String
  price : Nat
  category : String
  stock_status : String
deriving DecidableEq, Repr

/-- `RAGResponse`: the search handler's structured result. -/
structure RAGResponse where
  message : String
  transfer_to_agent : Option String := none
  products : List ProductInfo := []
deriving DecidableEq, Repr

/-- `OrderResponse`: the order handler's structured result.  `status` is one
of `"collecting_info"`, `"confirming"`, `"completed"`, `"failed"`. -/
structure OrderResponse where
  message : String
  transfer_to_agent : Option String := none
  status : String
  missing_fields : List String := []
  order_id : Option String := none
deriving DecidableEq, Repr

/-- `OrchestratorResponse`: the per-turn response returned to the caller. -/
structure OrchestratorResponse where
  message : String
  agent_used : String
deriving DecidableEq, Repr

/-! ## Agent `invoke` fault handling (`order_agent.py` lines 431-478,
`rag_agent.py` lines 189-252)

Each agent's `invoke` wraps the opaque language capability in a try/except and
a structured-result check.  The capability call is modelled as an `Except`
value: `.error` is a raised exception, `.ok none` a missing structured
response, `.ok (some r)` a structured response `r`. -/

/-- `OrderAgent.invoke` fallback on a raised exception. -/
def orderAgentErrorResponse : OrderResponse :=
  { message := "I encountered an error processing your order. Please try again."
    status := "failed" }

/-- `OrderAgent.invoke` fallback when no structured response is returned. -/
def orderAgentNoStructuredResponse : OrderResponse :=
  { message :=
      "I'm not quite sure what you'd like to do. Could you clarify?\n" ++
      "• If you want to order a product, please provide the product ID (e.g., 'TECH-001') and quantity\n" ++
      "• If you want to search for products, I can help you browse our catalog\n" ++
      "• If you're continuing an order, please answer my previous question"
    status := "collecting_info" }

/-- `OrderAgent.invoke`: total function from the capability outcome to a
normal `OrderResponse`; exceptions and missing structured results degrade to
fallback responses instead of propagating. -/
def orderAgentInvoke (llm : Except Unit (Option OrderResponse)) : OrderResponse :=
  match llm with
  | .error _ => orderAgentErrorResponse
  | .ok none => orderAgentNoStructuredResponse
  | .ok (some r) => r

/-- `RAGAgent.invoke` fallback on a timeout exception. -/
def ragAgentTimeoutResponse : RAGResponse :=
  { message :=
      "Searching our catalog is taking longer than usual. " ++
      "This might be due to high traffic. Please try your search again, " ++
      "or try being more specific about what you're looking for." }

/-- `RAGAgent.invoke` fallback on a non-timeout exception. -/
def ragAgentErrorResponse : RAGResponse :=
  { message := "I encountered an error searching for products. Please try again." }

/-- `RAGAgent.invoke` fallback when no structured response is returned. -/
def ragAgentNoStructuredResponse : RAGResponse :=
  { message :=
      "I'm having trouble understanding your search. Could you try rephrasing?\n" ++
      "• Try being more specific about what you're looking for\n" ++
      "• You can search by product name, category, or features\n" ++
      "• For example: 'show me laptops' or 'wireless headphones under $100'" }

/-- `RAGAgent.invoke`: total function from the capability outcome (the
exception's `Bool` payload records whether it classified as a timeout) to a
normal `RAGResponse`. -/
def ragAgentInvoke (llm : Except Bool (Option RAGResponse)) : RAGResponse :=
  match llm with
  | .error is_timeout =>
    if is_timeout then ragAgentTimeoutResponse else ragAgentErrorResponse
  | .ok none => ragAgentNoStructuredResponse
  | .ok (some r) => r

/-! ## Orchestrator state machine (`src/agents/orchestrator.py`) -/

/-- `OrchestratorState`: `INTENT` is the free intent-routing mode, `CHECKOUT`
the order-locked mode. -/
inductive OrchestratorState where
  | INTENT
  | CHECKOUT
deriving DecidableEq, Repr

/-- `OrchestratorState.is_checkout_mode`. -/
def OrchestratorState.isCheckoutMode : OrchestratorState → Bool
  | .CHECKOUT => true
  | .INTENT => false

/-- `OrchestratorState.should_exit_checkout_mode` (`orchestrator.py` lines
35-55): exit on a terminal order status or on a transfer request to the RAG
agent. -/
def shouldExitCheckoutMode (order_status : String)
    (transfer_to_agent : Option String) : Bool :=
  if order_status == "completed" || order_status == "failed" then true
  else if transfer_to_agent == some "rag" then true
  else false

/-- The orchestrator's per-conversation mutable state: `_state` and `_cart`
(`_chat_history` is overwritten from the argument on every `invoke`). -/
structure OrchSt where
  state : OrchestratorState
  cart : Cart
deriving DecidableEq, Repr

/-- Observable routing events of one `Orchestrator.invoke` call, used to state
which handlers were consulted and with which history argument. -/
inductive RoutingEvent where
  /-- The intent-resolution LLM loop (`self.agent.invoke`) ran. -/
  | intentResolution
  /-- `OrderAgent.invoke` was called with this chat history. -/
  | invokedOrder (history : List ChatMessage)
  /-- `RAGAgent.invoke` was called with this chat history. -/
  | invokedRag (history : List ChatMessage)
deriving DecidableEq, Repr

/-- A tool call the intent-resolution LLM chooses to make. -/
inductive IntentToolCall where
  | search (request : String)
  | order (request : String)
deriving DecidableEq, Repr

/-- One run of the intent-resolution agent (`self.agent.invoke`): the tool
calls it makes, then its outcome (`.error` = raised exception, `.ok none` =
no structured response, `.ok (some r)` = structured response). -/
structure IntentRun where
  calls : List IntentToolCall
  outcome : Except Unit (Option OrchestratorResponse)

/-- Oracles for the three opaque language-capability behaviours the
orchestrator composes.  The order agent may mutate the shared cart during its
run, so its oracle also transforms the cart. -/
structure AgentOracles where
  orderAgent : String → List ChatMessage → Cart → OrderResponse × Cart
  ragAgent : String → List ChatMessage → RAGResponse
  intentAgent : String → List ChatMessage → IntentRun

/-- `Orchestrator._append_product_details`: append "Products Found" lines (one
per product, with name, ID and price) so product IDs persist in history. -/
def appendProductDetails (message : String) (products : List ProductInfo) : String :=
  match products with
  | [] => message
  | _ =>
    let lines := products.map (fun p =>
      "• " ++ p.name ++ " (ID: " ++ p.product_id ++ ") - $" ++ toString p.price)
    message ++ "\n\nProducts Found:\n" ++ String.intercalate "\n" lines

/-- The `search_products` tool of the orchestrator (`orchestrator.py` lines
98-119): resets state to `INTENT`, invokes the RAG agent with the stored chat
history, and returns its message with product details appended.  The RAG
result's `transfer_to_agent` field is not inspected. -/
def searchProductsTool (oc : AgentOracles) (chat_history : List ChatMessage)
    (st : OrchSt) (request : String) : OrchSt × String × List RoutingEvent :=
  let result := oc.ragAgent request chat_history
  (⟨.INTENT, st.cart⟩, appendProductDetails result.message result.products,
   [.invokedRag chat_history])

/-- The `manage_order` tool of the orchestrator (`orchestrator.py` lines
121-160): sets state to `CHECKOUT`, invokes the order agent, then exits back
to `INTENT` when `should_exit_checkout_mode` fires, prefixing a transfer note
when the order agent asked for the RAG agent. -/
def manageOrderTool (oc : AgentOracles) (chat_history : List ChatMessage)
    (st : OrchSt) (request : String) : OrchSt × String × List RoutingEvent :=
  let (result, cart') := oc.orderAgent request chat_history st.cart
  if shouldExitCheckoutMode result.status result.transfer_to_agent then
    if result.transfer_to_agent == some "rag" then
      (⟨.INTENT, cart'⟩,
       "Let me transfer you back to product search. " ++ result.message,
       [.invokedOrder chat_history])
    else
      (⟨.INTENT, cart'⟩, result.message, [.invokedOrder chat_history])
  else
    (⟨.CHECKOUT, cart'⟩, result.message, [.invokedOrder chat_history])

/-- Sequential execution of the intent agent's tool calls against the session
state, collecting the routing events (tool return strings feed the opaque LLM
and are dropped here). -/
def execIntentCalls (oc : AgentOracles) (chat_history : List ChatMessage) :
    OrchSt → List IntentToolCall → OrchSt × List RoutingEvent
  | st, [] => (st, [])
  | st, call :: rest =>
    let (st', _, evs) :=
      match call with
      | .search request => searchProductsTool oc chat_history st request
      | .order request => manageOrderTool oc chat_history st request
    let (stF, evsF) := execIntentCalls oc chat_history st' rest
    (stF, evs ++ evsF)

/-- `Orchestrator.invoke` fallback message on a raised exception. -/
def orchestratorErrorResponse : OrchestratorResponse :=
  { message := "I encountered an error processing your request. Please try again."
    agent_used := "orchestrator" }

/-- `Orchestrator.invoke` fallback message when the intent agent returns no
structured response. -/
def orchestratorClarifyResponse : OrchestratorResponse :=
  { message :=
      "I'd like to help you, but could you clarify what you're looking for?\n\n" ++
      "Are you trying to:\n" ++
      "• Search for products in our catalog (e.g., 'show me laptops' or 'find wireless headphones')\n" ++
      "• Place an order (e.g., 'I want to buy TECH-007' or 'order 2 laptops')\n\n" ++
      "Please provide more details about what you'd like to do!"
    agent_used := "orchestrator" }

/-- `Orchestrator.invoke` (`orchestrator.py` lines 253-337): the per-turn
entry point.  In `CHECKOUT` state it routes directly to the order agent and
applies the exit/handover/bounce rules of lines 272-305; otherwise it runs the
intent-resolution agent, executing its tool calls, and degrades a raised
exception or a missing structured result to a fallback response.  Returns the
response, the new session state, and the routing-event trace. -/
def orchestratorInvoke (oc : AgentOracles) (st : OrchSt) (user_query : String)
    (chat_history : List ChatMessage) :
    OrchestratorResponse × OrchSt × List RoutingEvent :=
  if st.state.isCheckoutMode then
    let (result, cart') := oc.orderAgent user_query chat_history st.cart
    if shouldExitCheckoutMode result.status result.transfer_to_agent then
      if result.transfer_to_agent == some "rag" then
        -- Explicitly pass no history on handover (orchestrator.py line 287).
        let rag_result := oc.ragAgent user_query []
        if rag_result.transfer_to_agent == some "order" then
          -- Bounce guard: return the order agent's transition message.
          ({ message := result.message, agent_used := "order" },
           ⟨.INTENT, cart'⟩, [.invokedOrder chat_history, .invokedRag []])
        else
          ({ message := appendProductDetails rag_result.message rag_result.products,
             agent_used := "rag" },
           ⟨.INTENT, cart'⟩, [.invokedOrder chat_history, .invokedRag []])
      else
        ({ message := result.message, agent_used := "order" },
         ⟨.INTENT, cart'⟩, [.invokedOrder chat_history])
    else
      ({ message := result.message, agent_used := "order" },
       ⟨.CHECKOUT, cart'⟩, [.invokedOrder chat_history])
  else
    let run := oc.intentAgent user_query chat_history
    let (st', evs) := execIntentCalls oc chat_history st run.calls
    match run.outcome with
    | .error _ => (orchestratorErrorResponse, st', .intentResolution :: evs)
    | .ok none => (orchestratorClarifyResponse, st', .intentResolution :: evs)
    | .ok (some r) => (r, st', .intentResolution :: evs)

/-! ## Order-agent turn model (tool-call level)

One order-agent turn executes the tool calls chosen by the opaque LLM against
the shared cart (`order_agent.py` tools), then produces the structured (or
fallback) response via `orderAgentInvoke`.  `execOrderTools` returns the final
cart and how many orders were successfully created during the turn. -/

/-- A tool call the order agent's LLM chooses to make. -/
inductive OrderToolCall where
  | addItem (product_id : String) (quantity : Nat)
  | removeItem (product_id : String)
  | viewCartCall
  | transferToRag (reason : String)
  | createOrderCall (customer_name : String) (email : String)
      (shipping_address : String)
deriving DecidableEq, Repr

/-- Executes a list of order-agent tool calls against the cart, counting
successful order creations. -/
def execOrderTools (catalog : Catalog) (new_order_id : String) :
    Cart → List OrderToolCall → Cart × Nat
  | cart, [] => (cart, 0)
  | cart, call :: rest =>
    let step : Cart × Nat :=
      match call with
      | .addItem product_id quantity =>
        ((addToCart catalog cart product_id quantity).2, 0)
      | .removeItem product_id => ((removeFromCart cart product_id).2, 0)
      | .viewCartCall => (cart, 0)
      | .transferToRag _ => (cart, 0)
      | .createOrderCall customer_name email shipping_address =>
        match createOrderTool catalog new_order_id cart customer_name email
            shipping_address with
        | (.placed _ _ _ _ _ _, cart') => (cart', 1)
        | (_, cart') => (cart', 0)
    let (cartF, created) := execOrderTools catalog new_order_id step.1 rest
    (cartF, step.2 + created)

/-- One full order-agent turn: the LLM-chosen tool calls run against the cart,
then the structured outcome (or fallback) is returned.  Result: the
`OrderResponse`, the final cart, and the number of orders created. -/
def orderAgentTurn (catalog : Catalog) (new_order_id : String) (cart : Cart)
    (calls : List OrderToolCall) (llm : Except Unit (Option OrderResponse)) :
    OrderResponse × Cart × Nat :=
  let (cart', created) := execOrderTools catalog new_order_id cart calls
  (orderAgentInvoke llm, cart', created)

/-! ## Concrete fixtures for witnesses and counterexamples -/

/-- An in-stock catalog product used in concrete scenarios. -/
def wirelessEarbuds : Product :=
  ⟨"TECH-007", "Wireless Earbuds", "Noise-cancelling earbuds with 24h battery",
   12999, "electronics", "in_stock"⟩

/-- A second in-stock product. -/
def macbookPro : Product :=
  ⟨"TECH-001", "MacBook Pro 16-inch", "Apple laptop with M3 chip", 249999,
   "electronics", "in_stock"⟩

/-- An out-of-stock product. -/
def oldKeyboard : Product :=
  ⟨"TECH-002", "Mechanical Keyboard", "RGB mechanical keyboard", 8999,
   "electronics", "out_of_stock"⟩

/-- A small concrete catalog. -/
def sampleCatalog : Catalog := [wirelessEarbuds, macbookPro, oldKeyboard]

/-- A one-line concrete cart. -/
def oneItemCart : Cart := [⟨"TECH-007", "Wireless Earbuds", 1, 12999⟩]

/-! ## Helper lemmas about cart updates -/

theorem updateFirstQuantity_map_product_id (c : Cart) (pid : String) (q : Nat) :
    (updateFirstQuantity c pid q).map (·.product_id) = c.map (·.product_id) := by
  induction c with
  | nil => rfl
  | cons item rest ih =>
    by_cases hm : item.product_id == pid
    · simp [updateFirstQuantity, hm]
    · simp [updateFirstQuantity, hm, ih]

theorem updateFirstQuantity_length (c : Cart) (pid : String) (q : Nat) :
    (updateFirstQuantity c pid q).length = c.length := by
  have h := congrArg List.length (updateFirstQuantity_map_product_id c pid q)
  simpa using h

theorem updateFirstQuantity_quantity (c : Cart) (pid : String) (q : Nat)
    (hnd : (c.map (·.product_id)).Nodup) :
    ∀ item ∈ updateFirstQuantity c pid q, item.product_id = pid →
      item.quantity = q := by
  induction c with
  | nil => intro item hmem; simp [updateFirstQuantity] at hmem
  | cons head rest ih =>
    simp only [List.map_cons, List.nodup_cons] at hnd
    by_cases hm : head.product_id == pid
    · intro item hmem hpid
      simp only [updateFirstQuantity, hm, if_pos] at hmem
      rcases List.mem_cons.mp hmem with hhd | htl
      · subst hhd; rfl
      · exfalso
        have hpid' : head.product_id = pid := by simpa using hm
        exact hnd.1 (by
          have : item.product_id ∈ rest.map (·.product_id) :=
            List.mem_map_of_mem _ htl
          rw [hpid, ← hpid'] at this
          exact this)
    · intro item hmem hpid
      simp only [updateFirstQuantity, hm, if_neg] at hmem
      rcases List.mem_cons.mp hmem with hhd | htl
      · exfalso
        subst hhd
        have hne : ¬ item.product_id = pid := by simpa using hm
        exact hne hpid
      · exact ih hnd.2 item htl hpid

theorem updateFirstQuantity_mem_of_ne (c : Cart) (pid : String) (q : Nat) :
    ∀ item ∈ updateFirstQuantity c pid q, item.product_id ≠ pid → item ∈ c := by
  induction c with
  | nil => intro item hmem; simp [updateFirstQuantity] at hmem
  | cons head rest ih =>
    by_cases hm : head.product_id == pid
    · intro item hmem hne
      simp only [updateFirstQuantity, hm, if_pos] at hmem
      rcases List.mem_cons.mp hmem with hhd | htl
      · exfalso
        apply hne
        subst hhd
        simpa using hm
      · exact List.mem_cons_of_mem _ htl
    · intro item hmem hne
      simp only [updateFirstQuantity, hm, if_neg] at hmem
      rcases List.mem_cons.mp hmem with hhd | htl
      · subst hhd; exact List.mem_cons_self _ _
      · exact List.mem_cons_of_mem _ (ih item htl hne)

theorem updateFirstQuantity_idem (c : Cart) (pid : String) (q : Nat) :
    updateFirstQuantity (updateFirstQuantity c pid q) pid q =
      updateFirstQuantity c pid q := by
  induction c with
  | nil => rfl
  | cons head rest ih =>
    by_cases hm : head.product_id == pid
    · simp [updateFirstQuantity, hm]
    · simp [updateFirstQuantity, hm, ih]

theorem find?_product_id_isSome_of_mem {c : Cart} {pid : String}
    (hmem : ∃ item ∈ c, item.product_id = pid) :
    ∃ it, c.find? (fun item => item.product_id == pid) = some it := by
  rcases hmem with ⟨item, hin, hpid⟩
  have : (c.find? (fun item => item.product_id == pid)).isSome := by
    rw [List.find?_isSome]
    exact ⟨item, hin, by simpa using hpid⟩
  exact Option.isSome_iff_exists.mp this

/-- C6 core evaluation: with product found and available and an existing line,
`addToCart` takes the replace branch. -/
theorem addToCart_replace_eq {catalog : Catalog} {cart : Cart} {pid : String}
    {q : Nat} {p : Product}
    (hp : getProduct catalog pid = some p)
    (hav : isAvailable catalog pid = true)
    (hmem : ∃ item ∈ cart, item.product_id = pid) :
    addToCart catalog cart pid q =
      (.updated pid p.name q (p.price * q) (p.stock_status == "low_stock"),
       updateFirstQuantity cart pid q) := by
  rcases find?_product_id_isSome_of_mem hmem with ⟨it, hfind⟩
  simp [addToCart, hp, hav, hfind]

/-- C6: for every cart (unique by product_id, the Cart invariant) and every
available catalog product already present in the cart, `add_to_cart` replaces
that line's quantity with the new quantity — it does not increment it and does
not add a second line — so the cart keeps the same product_id sequence (hence
stays unique), its length is unchanged, every line carrying that product_id
now has the new quantity, all other lines are unchanged, and repeating the
same add request is idempotent on the outcome and the final cart state. -/
theorem add_to_cart_replaces_existing_line
    (catalog : Catalog) (cart : Cart) (pid : String) (q : Nat) (p : Product)
    (out : AddOutcome) (cart' : Cart)
    (hnd : (cart.map (·.product_id)).Nodup)
    (hp : getProduct catalog pid = some p)
    (hav : isAvailable catalog pid = true)
    (hmem : ∃ item ∈ cart, item.product_id = pid)
    (hrun : addToCart catalog cart pid q = (out, cart')) :
    cart'.map (·.product_id) = cart.map (·.product_id)
    ∧ (cart'.map (·.product_id)).Nodup
    ∧ cart'.length = cart.length
    ∧ (∀ item ∈ cart', item.product_id = pid → item.quantity = q)
    ∧ (∀ item ∈ cart', item.product_id ≠ pid → item ∈ cart)
    ∧ addToCart catalog cart' pid q = (out, cart') := by
  have heval := addToCart_replace_eq hp hav hmem (q := q)
  rw [heval] at hrun
  injection hrun with hout hcart
  subst hcart
  have hmap := updateFirstQuantity_map_product_id cart pid q
  refine ⟨hmap, hmap ▸ hnd, updateFirstQuantity_length cart pid q,
    updateFirstQuantity_quantity cart pid q hnd,
    updateFirstQuantity_mem_of_ne cart pid q, ?_⟩
  have hmem' : ∃ item ∈ updateFirstQuantity cart pid q, item.product_id = pid := by
    rcases hmem with ⟨item, hin, hpid⟩
    have : item.product_id ∈ (updateFirstQuantity cart pid q).map (·.product_id) := by
      rw [hmap]; exact List.mem_map_of_mem _ hin
    rcases List.mem_map.mp this with ⟨item', hin', hpid'⟩
    exact ⟨item', hin', by rw [hpid', hpid]⟩
  rw [addToCart_replace_eq hp hav hmem' (q := q), updateFirstQuantity_idem,
    ← hout]

/-- Cart holding TECH-007 with quantity 2 (after `add("TECH-007", 2)`). -/
def cartAfterAddTwo : Cart := [⟨"TECH-007", "Wireless Earbuds", 2, 12999⟩]

/-- Cart holding TECH-007 with quantity 5 (after the subsequent
`add("TECH-007", 5)`). -/
def cartAfterAddFive : Cart := [⟨"TECH-007", "Wireless Earbuds", 5, 12999⟩]

/-- Witness for C6, the spec's own example: `add("TECH-007", 2)` followed by
`add("TECH-007", 5)` leaves exactly one TECH-007 line with quantity 5. -/
theorem add_to_cart_replaces_existing_line_witness :
    addToCart sampleCatalog cartAfterAddTwo "TECH-007" 5 =
      (.updated "TECH-007" "Wireless Earbuds" 5 64995 false, cartAfterAddFive)
    ∧ (cartAfterAddFive.map (·.product_id) = cartAfterAddTwo.map (·.product_id)
       ∧ (cartAfterAddFive.map (·.product_id)).Nodup
       ∧ cartAfterAddFive.length = cartAfterAddTwo.length
       ∧ (∀ item ∈ cartAfterAddFive, item.product_id = "TECH-007" → item.quantity = 5)
       ∧ (∀ item ∈ cartAfterAddFive, item.product_id ≠ "TECH-007" → item ∈ cartAfterAddTwo)
       ∧ addToCart sampleCatalog cartAfterAddFive "TECH-007" 5 =
           (.updated "TECH-007" "Wireless Earbuds" 5 64995 false, cartAfterAddFive)) :=
  ⟨by decide,
   add_to_cart_replaces_existing_line sampleCatalog cartAfterAddTwo "TECH-007" 5
     wirelessEarbuds (.updated "TECH-007" "Wireless Earbuds" 5 64995 false)
     cartAfterAddFive (by decide) (by decide) (by decide) (by decide) (by decide)⟩

/-- C7: when `add_to_cart` fails because the product is missing from the
catalog or unavailable, the outcome is the corresponding error and the cart is
exactly unchanged; when the product is found and available, the outcome
reports the updated subtotal (`price * quantity`) and the cart gains the new
line (insert) or keeps a single updated line (replace, see C6). -/
theorem add_to_cart_failure_leaves_cart_unchanged
    (catalog : Catalog) (cart : Cart) (pid : String) (q : Nat)
    (out : AddOutcome) (cart' : Cart)
    (hrun : addToCart catalog cart pid q = (out, cart')) :
    (getProduct catalog pid = none → out = .notFound pid ∧ cart' = cart)
    ∧ (∀ p, getProduct catalog pid = some p → isAvailable catalog pid = false →
        out = .outOfStock pid p.name ∧ cart' = cart)
    ∧ (∀ p, getProduct catalog pid = some p → isAvailable catalog pid = true →
        ((∃ item ∈ cart, item.product_id = pid) →
          out = .updated pid p.name q (p.price * q) (p.stock_status == "low_stock"))
        ∧ ((∀ item ∈ cart, item.product_id ≠ pid) →
          out = .added pid p.name q p.price (p.price * q) p.stock_status
              (p.stock_status == "low_stock")
          ∧ cart' = cart ++ [⟨pid, p.name, q, p.price⟩])) := by
  refine ⟨?_, ?_, ?_⟩
  · intro hnone
    rw [addToCart, hnone] at hrun
    injection hrun with hA hB
    exact ⟨hA.symm, hB.symm⟩
  · intro p hp hav
    rw [addToCart, hp] at hrun
    simp only [hav, Bool.false_eq_true, if_false] at hrun
    injection hrun with hA hB
    exact ⟨hA.symm, hB.symm⟩
  · intro p hp hav
    constructor
    · intro hmem
      have heval := addToCart_replace_eq hp hav hmem (q := q)
      rw [heval] at hrun
      injection hrun with hA hB
      exact hA.symm
    · intro habs
      have hfind : cart.find? (fun item => item.product_id == pid) = none := by
        rw [List.find?_eq_none]
        intro item hin
        simpa using habs item hin
      rw [addToCart, hp] at hrun
      simp only [hav, if_true, hfind] at hrun
      injection hrun with hA hB
      exact ⟨hA.symm, hB.symm⟩

/-- Witness for C7 at concrete inputs: an unknown product ID and an
out-of-stock product both leave the one-item cart untouched, while adding an
available product appends the line and reports subtotal 2 × 249999. -/
theorem add_to_cart_failure_witness :
    (addToCart sampleCatalog oneItemCart "SPORT-999" 1).1 = .notFound "SPORT-999"
    ∧ (addToCart sampleCatalog oneItemCart "SPORT-999" 1).2 = oneItemCart
    ∧ (addToCart sampleCatalog oneItemCart "TECH-002" 3).1
        = .outOfStock "TECH-002" "Mechanical Keyboard"
    ∧ (addToCart sampleCatalog oneItemCart "TECH-002" 3).2 = oneItemCart
    ∧ (addToCart sampleCatalog oneItemCart "TECH-001" 2).1
        = .added "TECH-001" "MacBook Pro 16-inch" 2 249999 499998 "in_stock" false
    ∧ (addToCart sampleCatalog oneItemCart "TECH-001" 2).2
        = oneItemCart ++ [⟨"TECH-001", "MacBook Pro 16-inch", 2, 249999⟩] := by
  have h1 := (add_to_cart_failure_leaves_cart_unchanged sampleCatalog oneItemCart
    "SPORT-999" 1 _ _ rfl).1 (by decide)
  have h2 := (add_to_cart_failure_leaves_cart_unchanged sampleCatalog oneItemCart
    "TECH-002" 3 _ _ rfl).2.1 oldKeyboard (by decide) (by decide)
  have h3 := ((add_to_cart_failure_leaves_cart_unchanged sampleCatalog oneItemCart
    "TECH-001" 2 _ _ rfl).2.2 macbookPro (by decide) (by decide)).2 (by decide)
  exact ⟨h1.1, h1.2, h2.1, h2.2, h3.1, h3.2⟩

/-- C9: product resolution tries an exact catalog lookup by product ID first,
then (when the ID lookup misses) an exact case-insensitive name match, and
performs semantic top-k search only when no exact match exists — an exact
match is never shadowed by semantic results (the retrieval outcome is
independent of the search collaborator whenever an exact match exists) — and
the RAG agent's `k` defaults to 5. -/
theorem product_resolution_exact_before_semantic
    (catalog : Catalog) (s₁ s₂ : String → Nat → List Product) (k : Nat)
    (q : String) :
    (∀ p, getProduct catalog q = some p → getProductByIdOrName catalog q = some p)
    ∧ (getProduct catalog q = none →
        ∀ p, getProductByIdOrName catalog q = some p →
          p ∈ catalog ∧ lowerString p.name = lowerString q)
    ∧ (∀ p, getProductByIdOrName catalog q = some p →
        retrieveProducts catalog s₁ k q = .exact p
        ∧ retrieveProducts catalog s₁ k q = retrieveProducts catalog s₂ k q)
    ∧ (getProductByIdOrName catalog q = none → s₁ q k = [] →
        retrieveProducts catalog s₁ k q = .noResults)
    ∧ (getProductByIdOrName catalog q = none → s₁ q k ≠ [] →
        retrieveProducts catalog s₁ k q = .semantic (s₁ q k))
    ∧ ({} : RAGAgentConfig).k = 5 := by
  refine ⟨?_, ?_, ?_, ?_, ?_, rfl⟩
  · intro p hp
    simp [getProductByIdOrName, hp]
  · intro hnone p hsome
    rw [getProductByIdOrName, hnone] at hsome
    refine ⟨List.mem_of_find?_eq_some hsome, ?_⟩
    have := List.find?_some hsome
    simpa using this
  · intro p hp
    constructor
    · simp [retrieveProducts, hp]
    · simp [retrieveProducts, hp]
  · intro hnone hempty
    simp [retrieveProducts, hnone, hempty]
  · intro hnone hne
    rcases hs : s₁ q k with _ | ⟨a, l⟩
    · exact absurd hs hne
    · simp [retrieveProducts, hnone, hs]

/-- Witness for C9 at concrete inputs: an ID query resolves exactly and
ignores the semantic collaborator; a lowercase exact-name query resolves via
the name fallback; a free-text query falls through to semantic search (or to
the no-results reply when the collaborator returns nothing); the default `k`
is 5. -/
theorem product_resolution_witness :
    getProductByIdOrName sampleCatalog "TECH-001" = some macbookPro
    ∧ retrieveProducts sampleCatalog (fun _ _ => [wirelessEarbuds]) 5 "TECH-001"
        = .exact macbookPro
    ∧ retrieveProducts sampleCatalog (fun _ _ => [wirelessEarbuds]) 5 "TECH-001"
        = retrieveProducts sampleCatalog (fun _ _ => []) 5 "TECH-001"
    ∧ (wirelessEarbuds ∈ sampleCatalog
       ∧ lowerString "Wireless Earbuds" = lowerString "wireless earbuds")
    ∧ retrieveProducts sampleCatalog (fun _ _ => [macbookPro]) 5 "gaming laptop"
        = .semantic [macbookPro]
    ∧ retrieveProducts sampleCatalog (fun _ _ => []) 5 "gaming laptop" = .noResults
    ∧ ({} : RAGAgentConfig).k = 5 := by
  have t1 := product_resolution_exact_before_semantic sampleCatalog
    (fun _ _ => [wirelessEarbuds]) (fun _ _ => []) 5 "TECH-001"
  have h1 := t1.1 macbookPro (by decide)
  have h2 := t1.2.2.1 macbookPro h1
  have t2 := product_resolution_exact_before_semantic sampleCatalog
    (fun _ _ => [wirelessEarbuds]) (fun _ _ => []) 5 "wireless earbuds"
  have h3 := t2.2.1 (by decide) wirelessEarbuds (by decide)
  have t3 := product_resolution_exact_before_semantic sampleCatalog
    (fun _ _ => [macbookPro]) (fun _ _ => []) 5 "gaming laptop"
  have h4 := t3.2.2.2.2.1 (by decide) (by simp)
  have t4 := product_resolution_exact_before_semantic sampleCatalog
    (fun _ _ => []) (fun _ _ => []) 5 "gaming laptop"
  have h5 := t4.2.2.2.1 (by decide) rfl
  exact ⟨h1, h2.1, h2.2, h3, h4, h5, rfl⟩

/-! ## Orchestrator routing theorems -/

theorem shouldExit_of_transfer_rag (s : String) :
    shouldExitCheckoutMode s (some "rag") = true := by
  simp [shouldExitCheckoutMode]

/-- C1: when the first-invoked handler (the order agent, reached through
ORDER_LOCKED routing — the only path on which the controller itself invokes a
second handler in the same turn) requests a transfer to the search handler and
the search handler's result requests a transfer back, the controller stops
after that second invocation: the trace shows each handler invoked exactly
once, the turn's response is the first handler's pre-transfer message
verbatim, and `handled_by` is the first handler's identity (`"order"`). -/
theorem bounce_guard_returns_first_handler_message
    (oc : AgentOracles) (st : OrchSt) (q : String) (h : List ChatMessage)
    (result : OrderResponse) (cart' : Cart)
    (hmode : st.state = .CHECKOUT)
    (horder : oc.orderAgent q h st.cart = (result, cart'))
    (htrans : result.transfer_to_agent = some "rag")
    (hbounce : (oc.ragAgent q []).transfer_to_agent = some "order") :
    orchestratorInvoke oc st q h =
      ({ message := result.message, agent_used := "order" },
       ⟨.INTENT, cart'⟩, [.invokedOrder h, .invokedRag []]) := by
  have hexit : shouldExitCheckoutMode result.status (some "rag") = true :=
    shouldExit_of_transfer_rag _
  simp [orchestratorInvoke, hmode, OrchestratorState.isCheckoutMode, horder,
    hexit, htrans, hbounce]

/-- Oracle fixture: order agent requests a transfer to search, search agent
immediately requests a transfer back to order. -/
def bounceOracle : AgentOracles where
  orderAgent := fun _ _ cart =>
    ({ message := "Please continue your checkout.",
       transfer_to_agent := some "rag", status := "collecting_info" }, cart)
  ragAgent := fun _ _ =>
    { message := "Let me connect you with our order specialist.",
      transfer_to_agent := some "order" }
  intentAgent := fun _ _ => ⟨[], .ok none⟩

/-- Witness for C1: a concrete bounced turn returns within one hop with the
order agent's pre-transfer message and `agent_used = "order"`. -/
theorem bounce_guard_witness :
    orchestratorInvoke bounceOracle ⟨.CHECKOUT, oneItemCart⟩ "something else" [] =
      ({ message := "Please continue your checkout.", agent_used := "order" },
       ⟨.INTENT, oneItemCart⟩, [.invokedOrder [], .invokedRag []]) :=
  bounce_guard_returns_first_handler_message bounceOracle ⟨.CHECKOUT, oneItemCart⟩
    "something else" []
    { message := "Please continue your checkout.",
      transfer_to_agent := some "rag", status := "collecting_info" }
    oneItemCart rfl rfl rfl rfl

/-- C2: whenever the session state is ORDER_LOCKED (`CHECKOUT`) at the start
of a turn, the controller routes the turn directly to the order handler — the
first routing event is the order-agent invocation with the turn's history, and
intent resolution never runs during the turn. -/
theorem order_locked_routes_directly
    (oc : AgentOracles) (st : OrchSt) (q : String) (h : List ChatMessage)
    (hmode : st.state = .CHECKOUT) :
    (orchestratorInvoke oc st q h).2.2.head? = some (.invokedOrder h)
    ∧ RoutingEvent.intentResolution ∉ (orchestratorInvoke oc st q h).2.2 := by
  rcases hord : oc.orderAgent q h st.cart with ⟨result, cart'⟩
  by_cases h1 : shouldExitCheckoutMode result.status result.transfer_to_agent
  · by_cases h2 : result.transfer_to_agent == some "rag"
    · by_cases h3 : (oc.ragAgent q []).transfer_to_agent == some "order"
      · simp [orchestratorInvoke, hmode, OrchestratorState.isCheckoutMode,
          hord, h1, h2, h3]
      · simp [orchestratorInvoke, hmode, OrchestratorState.isCheckoutMode,
          hord, h1, h2, h3]
    · simp [orchestratorInvoke, hmode, OrchestratorState.isCheckoutMode,
        hord, h1, h2]
  · simp [orchestratorInvoke, hmode, OrchestratorState.isCheckoutMode,
      hord, h1]

/-- Oracle fixture: order agent reports `completed` but leaves the shared cart
untouched (an LLM run that never called `create_order`). -/
def completedWithoutClearOracle : AgentOracles where
  orderAgent := fun _ _ cart =>
    ({ message := "Your order is complete!", status := "completed" }, cart)
  ragAgent := fun _ _ => { message := "How can I help?" }
  intentAgent := fun _ _ => ⟨[], .ok none⟩

/-- Witness for C2 at a concrete ORDER_LOCKED turn. -/
theorem order_locked_routes_directly_witness :
    (orchestratorInvoke completedWithoutClearOracle ⟨.CHECKOUT, oneItemCart⟩
        "anything" []).2.2.head? = some (.invokedOrder [])
    ∧ RoutingEvent.intentResolution ∉
        (orchestratorInvoke completedWithoutClearOracle ⟨.CHECKOUT, oneItemCart⟩
          "anything" []).2.2 :=
  order_locked_routes_directly completedWithoutClearOracle
    ⟨.CHECKOUT, oneItemCart⟩ "anything" [] rfl

/-- C10: on every hand-off from the order handler to the search handler
(order agent requests transfer to `"rag"` while ORDER_LOCKED), the controller
invokes the search handler with an empty conversation history, whatever the
turn's actual prior history was. -/
theorem handover_to_search_uses_empty_history
    (oc : AgentOracles) (st : OrchSt) (q : String) (h : List ChatMessage)
    (result : OrderResponse) (cart' : Cart)
    (hmode : st.state = .CHECKOUT)
    (horder : oc.orderAgent q h st.cart = (result, cart'))
    (htrans : result.transfer_to_agent = some "rag") :
    (orchestratorInvoke oc st q h).2.2 = [.invokedOrder h, .invokedRag []]
    ∧ ∀ hist, RoutingEvent.invokedRag hist ∈ (orchestratorInvoke oc st q h).2.2 →
        hist = [] := by
  have hexit : shouldExitCheckoutMode result.status (some "rag") = true :=
    shouldExit_of_transfer_rag _
  have htrace : (orchestratorInvoke oc st q h).2.2 =
      [.invokedOrder h, .invokedRag []] := by
    by_cases h3 : (oc.ragAgent q []).transfer_to_agent == some "order"
    · simp [orchestratorInvoke, hmode, OrchestratorState.isCheckoutMode,
        horder, hexit, htrans, h3]
    · simp [orchestratorInvoke, hmode, OrchestratorState.isCheckoutMode,
        horder, hexit, htrans, h3]
  refine ⟨htrace, ?_⟩
  intro hist hmem
  rw [htrace] at hmem
  rcases List.mem_cons.mp hmem with hc | hc
  · exact absurd hc (by simp)
  · simpa using List.mem_singleton.mp hc

/-- Oracle fixture: order agent hands the turn over to product search. -/
def orderToSearchOracle : AgentOracles where
  orderAgent := fun _ _ cart =>
    ({ message := "Transferring you to product search.",
       transfer_to_agent := some "rag", status := "collecting_info" }, cart)
  ragAgent := fun _ _ => { message := "Here are some products." }
  intentAgent := fun _ _ => ⟨[], .ok none⟩

/-- A nonempty prior history containing an earlier product mention. -/
def earlierHistory : List ChatMessage :=
  [⟨"user", "show me earbuds"⟩,
   ⟨"assistant", "Wireless Earbuds (ID: TECH-007) - $129.99"⟩]

/-- Witness for C10: with a nonempty prior history, the handed-over search
invocation still receives `[]`. -/
theorem handover_empty_history_witness :
    (orchestratorInvoke orderToSearchOracle ⟨.CHECKOUT, oneItemCart⟩
        "search headphones" earlierHistory).2.2 =
      [.invokedOrder earlierHistory, .invokedRag []]
    ∧ ∀ hist, RoutingEvent.invokedRag hist ∈
        (orchestratorInvoke orderToSearchOracle ⟨.CHECKOUT, oneItemCart⟩
          "search headphones" earlierHistory).2.2 → hist = [] :=
  handover_to_search_uses_empty_history orderToSearchOracle
    ⟨.CHECKOUT, oneItemCart⟩ "search headphones" earlierHistory
    { message := "Transferring you to product search.",
      transfer_to_agent := some "rag", status := "collecting_info" }
    oneItemCart rfl rfl rfl

/-- Counterexample to C3 as stated: the controller performs no cart clear.
A concrete ORDER_LOCKED turn whose order-agent run reports `completed` without
having called `create_order` (an admissible run of the opaque capability)
exits to `INTENT` as claimed, but the cart afterward is the untouched
`oneItemCart`, not empty — so "when the status is completed, the cart is empty
afterward, emptied by a single clear performed by the controller" is false. -/
theorem completed_turn_cart_not_cleared_by_controller :
    (completedWithoutClearOracle.orderAgent "place my order" [] oneItemCart).1.status
      = "completed"
    ∧ orchestratorInvoke completedWithoutClearOracle ⟨.CHECKOUT, oneItemCart⟩
        "place my order" [] =
      ({ message := "Your order is complete!", agent_used := "order" },
       ⟨.INTENT, oneItemCart⟩, [.invokedOrder []])
    ∧ oneItemCart ≠ [] := by
  refine ⟨rfl, by decide, by decide⟩

/-- C3 as amended: a terminal order status (`completed` or `failed`) always
exits to `FREE` (`INTENT`) — both on the ORDER_LOCKED path and on the
intent-routed `manage_order` path — and the controller leaves the cart exactly
as the handler returned it; the cart is emptied not by the controller but by
the `create_order` tool inside the handler, which clears it whenever it
successfully places an order. -/
theorem terminal_status_exits_checkout
    (oc : AgentOracles) (st : OrchSt) (q : String) (h : List ChatMessage)
    (result : OrderResponse) (cart' : Cart)
    (hmode : st.state = .CHECKOUT)
    (horder : oc.orderAgent q h st.cart = (result, cart'))
    (hterm : result.status = "completed" ∨ result.status = "failed") :
    ((orchestratorInvoke oc st q h).2.1.state = .INTENT
     ∧ (orchestratorInvoke oc st q h).2.1.cart = cart')
    ∧ (∀ (oc₂ : AgentOracles) (h₂ : List ChatMessage) (st₂ : OrchSt) (req : String),
        ((oc₂.orderAgent req h₂ st₂.cart).1.status = "completed"
          ∨ (oc₂.orderAgent req h₂ st₂.cart).1.status = "failed") →
        (manageOrderTool oc₂ h₂ st₂ req).1.state = .INTENT)
    ∧ (∀ (catalog : Catalog) (oid : String) (cart : Cart) (n e a : String),
        (∃ id cn em ad items total,
          (createOrderTool catalog oid cart n e a).1
            = .placed id cn em ad items total) →
        (createOrderTool catalog oid cart n e a).2 = []) := by
  have hexit : shouldExitCheckoutMode result.status result.transfer_to_agent
      = true := by
    rcases hterm with hs | hs <;> simp [shouldExitCheckoutMode, hs]
  refine ⟨?_, ?_, ?_⟩
  · by_cases h2 : result.transfer_to_agent == some "rag"
    · by_cases h3 : (oc.ragAgent q []).transfer_to_agent == some "order"
      · constructor <;>
          simp [orchestratorInvoke, hmode, OrchestratorState.isCheckoutMode,
            horder, hexit, h2, h3]
      · constructor <;>
          simp [orchestratorInvoke, hmode, OrchestratorState.isCheckoutMode,
            horder, hexit, h2, h3]
    · constructor <;>
        simp [orchestratorInvoke, hmode, OrchestratorState.isCheckoutMode,
          horder, hexit, h2]
  · intro oc₂ h₂ st₂ req hterm₂
    rcases hord₂ : oc₂.orderAgent req h₂ st₂.cart with ⟨r₂, c₂⟩
    have hexit₂ : shouldExitCheckoutMode r₂.status r₂.transfer_to_agent = true := by
      rw [hord₂] at hterm₂
      rcases hterm₂ with hs | hs <;> simp_all [shouldExitCheckoutMode]
    by_cases h2 : r₂.transfer_to_agent == some "rag" <;>
      simp [manageOrderTool, hord₂, hexit₂, h2]
  · intro catalog oid cart n e a hplaced
    obtain ⟨id, cn, em, ad, items, total, hpl⟩ := hplaced
    by_cases hemp : cart.isEmpty
    · rw [createOrderTool] at hpl
      simp [hemp] at hpl
    · rcases hb : buildOrderItems catalog cart with pid | nm | ⟨its, tt⟩
      · rw [createOrderTool] at hpl
        simp [hemp, hb] at hpl
      · rw [createOrderTool] at hpl
        simp [hemp, hb] at hpl
      · rw [createOrderTool]
        simp [hemp, hb]

/-- Witness for the amended C3 at a concrete completed turn and a concrete
successful `create_order` call. -/
theorem terminal_status_exits_checkout_witness :
    ((orchestratorInvoke completedWithoutClearOracle ⟨.CHECKOUT, oneItemCart⟩
        "place my order" []).2.1.state = .INTENT
     ∧ (orchestratorInvoke completedWithoutClearOracle ⟨.CHECKOUT, oneItemCart⟩
        "place my order" []).2.1.cart = oneItemCart)
    ∧ (createOrderTool sampleCatalog "ORD-42" oneItemCart "Ada" "ada@example.com"
        "12 Main St").2 = [] := by
  have t := terminal_status_exits_checkout completedWithoutClearOracle
    ⟨.CHECKOUT, oneItemCart⟩ "place my order" []
    { message := "Your order is complete!", status := "completed" }
    oneItemCart rfl rfl (Or.inl rfl)
  refine ⟨t.1, ?_⟩
  exact t.2.2 sampleCatalog "ORD-42" oneItemCart "Ada" "ada@example.com"
    "12 Main St"
    ⟨"ORD-42", "Ada", "ada@example.com", "12 Main St",
     [⟨"TECH-007", "Wireless Earbuds", 1, 12999⟩], 12999, by decide⟩

/-- Oracle fixture: the search agent's result requests a transfer to the
order agent. -/
def ragTransferOracle : AgentOracles where
  orderAgent := fun _ _ cart =>
    ({ message := "Order agent here.", status := "collecting_info" }, cart)
  ragAgent := fun _ _ =>
    { message := "Let me connect you with our order specialist.",
      transfer_to_agent := some "order" }
  intentAgent := fun _ _ => ⟨[], .ok none⟩

/-- Counterexample to C4 as stated: a concrete turn segment routed to the
search handler whose result requests a transfer to the order handler.  The
`search_products` tool sets the state to `INTENT` (not `ORDER_LOCKED`) and its
event trace contains no order-agent invocation: the controller neither locks
the session nor invokes the OrderHandler in response to the transfer
request. -/
theorem search_transfer_not_acted_on :
    (ragTransferOracle.ragAgent "I want to buy the earbuds" []).transfer_to_agent
      = some "order"
    ∧ (searchProductsTool ragTransferOracle [] ⟨.INTENT, []⟩
        "I want to buy the earbuds").1 = ⟨.INTENT, []⟩
    ∧ (⟨.INTENT, []⟩ : OrchSt).state ≠ .CHECKOUT
    ∧ (searchProductsTool ragTransferOracle [] ⟨.INTENT, []⟩
        "I want to buy the earbuds").2.2 = [.invokedRag []] :=
  ⟨rfl, rfl, by decide, rfl⟩

/-- C4 as amended: the controller ignores a search-handler transfer request —
after any `search_products` tool execution the state is `INTENT` and the only
routing event is the single RAG invocation, whatever `transfer_to_agent` the
search result carries; the session is in `CHECKOUT` after a `manage_order`
tool execution exactly when the order handler's own result does not trigger
the checkout-exit rule. -/
theorem search_tool_ignores_transfer_request
    (oc : AgentOracles) (h : List ChatMessage) (st : OrchSt) (req : String) :
    (searchProductsTool oc h st req).1.state = .INTENT
    ∧ (searchProductsTool oc h st req).2.2 = [.invokedRag h]
    ∧ ((manageOrderTool oc h st req).1.state = .CHECKOUT ↔
        shouldExitCheckoutMode (oc.orderAgent req h st.cart).1.status
          (oc.orderAgent req h st.cart).1.transfer_to_agent = false) := by
  refine ⟨rfl, rfl, ?_⟩
  rcases hord : oc.orderAgent req h st.cart with ⟨r, c⟩
  by_cases hexit : shouldExitCheckoutMode r.status r.transfer_to_agent
  · by_cases h2 : r.transfer_to_agent == some "rag" <;>
      simp [manageOrderTool, hord, hexit, h2]
  · simp [manageOrderTool, hord, hexit]

/-- Counterexample to C5 as stated: a single, first turn (no prior
summary-plus-affirmation exchange exists at all) in which the opaque
capability elects to call `create_order` with a shipping address.  The
embedded order-agent turn creates the order (count 1), clears the cart, and
reports status `completed`: nothing in the code requires a strictly later
confirmation turn — the gate exists only as prompt text. -/
theorem first_turn_address_only_creates_order :
    orderAgentTurn sampleCatalog "ORD-1A2B3C4D" oneItemCart
      [.createOrderCall "Ada Lovelace" "ada@example.com" "12 Main St, Springfield"]
      (.ok (some { message := "✅ Order placed successfully!",
                   status := "completed", order_id := some "ORD-1A2B3C4D" })) =
      ({ message := "✅ Order placed successfully!",
         status := "completed", order_id := some "ORD-1A2B3C4D" }, [], 1)
    ∧ oneItemCart ≠ [] := by
  refine ⟨by decide, by decide⟩

theorem buildOrderItems_ok_of_available (catalog : Catalog) (cart : Cart)
    (hav : ∀ item ∈ cart, isAvailable catalog item.product_id = true) :
    ∃ items total, buildOrderItems catalog cart = .ok items total := by
  induction cart with
  | nil => exact ⟨[], 0, rfl⟩
  | cons item rest ih =>
    have hi := hav item (List.mem_cons_self ..)
    obtain ⟨p, hp⟩ : ∃ p, getProduct catalog item.product_id = some p := by
      rcases hg : getProduct catalog item.product_id with _ | p
      · rw [isAvailable, hg] at hi
        exact absurd hi (by simp)
      · exact ⟨p, rfl⟩
    obtain ⟨items, total, hrest⟩ :=
      ih (fun it hit => hav it (List.mem_cons_of_mem _ hit))
    exact ⟨⟨item.product_id, p.name, item.quantity, p.price⟩ :: items,
      p.price * item.quantity + total, by simp [buildOrderItems, hp, hi, hrest]⟩

/-- C5 as amended: the `create_order` tool enforces no confirmation-history
precondition — it takes no conversation history at all, and whenever the cart
is nonempty and every cart item is available in the catalog, a single call
places the order and clears the cart, regardless of whether any summary or
explicit affirmation was ever exchanged; the summary-then-explicit-yes
sequencing lives only in the system-prompt instructions to the opaque language
capability. -/
theorem create_order_gated_only_by_cart_validity
    (catalog : Catalog) (oid : String) (cart : Cart) (n e a : String)
    (hne : cart ≠ [])
    (hav : ∀ item ∈ cart, isAvailable catalog item.product_id = true) :
    ∃ items total, createOrderTool catalog oid cart n e a
        = (.placed oid n e a items total, []) := by
  have hemp : cart.isEmpty = false := by
    rcases cart with _ | ⟨x, xs⟩
    · exact absurd rfl hne
    · rfl
  obtain ⟨items, total, hb⟩ := buildOrderItems_ok_of_available catalog cart hav
  exact ⟨items, total, by simp [createOrderTool, hemp, hb]⟩

/-- Witness for the amended C5 at a concrete nonempty, available cart. -/
theorem create_order_gated_only_by_cart_validity_witness :
    oneItemCart ≠ []
    ∧ (∀ item ∈ oneItemCart, isAvailable sampleCatalog item.product_id = true)
    ∧ ∃ items total,
        createOrderTool sampleCatalog "ORD-77" oneItemCart "Ada"
          "ada@example.com" "12 Main St" =
        (.placed "ORD-77" "Ada" "ada@example.com" "12 Main St" items total, []) :=
  ⟨by decide, by decide,
   create_order_gated_only_by_cart_validity sampleCatalog "ORD-77" oneItemCart
     "Ada" "ada@example.com" "12 Main St" (by decide) (by decide)⟩

/-- C8: the controller's entry point is a total function into
`OrchestratorResponse` — the embedding has no fault channel, mirroring the
try/except wrappers in the source — and every degenerate capability outcome is
converted into a normal message: an intent-agent exception yields the apology
response, a missing structured result yields the clarification response, and
the two handlers' own `invoke` wrappers likewise map exceptions and missing
structured results to fallback responses instead of raising. -/
theorem every_turn_returns_a_response
    (oc : AgentOracles) (st : OrchSt) (q : String) (h : List ChatMessage)
    (calls : List IntentToolCall) :
    (st.state = .INTENT → oc.intentAgent q h = ⟨calls, .error ()⟩ →
      (orchestratorInvoke oc st q h).1 = orchestratorErrorResponse)
    ∧ (st.state = .INTENT → oc.intentAgent q h = ⟨calls, .ok none⟩ →
      (orchestratorInvoke oc st q h).1 = orchestratorClarifyResponse)
    ∧ orderAgentInvoke (.error ()) = orderAgentErrorResponse
    ∧ orderAgentInvoke (.ok none) = orderAgentNoStructuredResponse
    ∧ (∀ r, orderAgentInvoke (.ok (some r)) = r)
    ∧ ragAgentInvoke (.error true) = ragAgentTimeoutResponse
    ∧ ragAgentInvoke (.error false) = ragAgentErrorResponse
    ∧ ragAgentInvoke (.ok none) = ragAgentNoStructuredResponse := by
  refine ⟨?_, ?_, rfl, rfl, fun r => rfl, rfl, rfl, rfl⟩
  · intro hmode hrun
    rcases hexec : execIntentCalls oc h st calls with ⟨st', evs⟩
    simp [orchestratorInvoke, hmode, OrchestratorState.isCheckoutMode, hrun,
      hexec]
  · intro hmode hrun
    rcases hexec : execIntentCalls oc h st calls with ⟨st', evs⟩
    simp [orchestratorInvoke, hmode, OrchestratorState.isCheckoutMode, hrun,
      hexec]

/-- Oracle fixture: the intent-resolution capability raises an exception. -/
def faultyIntentOracle : AgentOracles where
  orderAgent := fun _ _ cart => (orderAgentErrorResponse, cart)
  ragAgent := fun _ _ => ragAgentErrorResponse
  intentAgent := fun _ _ => ⟨[], .error ()⟩

/-- Oracle fixture: the intent-resolution capability returns no structured
response. -/
def silentIntentOracle : AgentOracles where
  orderAgent := fun _ _ cart => (orderAgentNoStructuredResponse, cart)
  ragAgent := fun _ _ => ragAgentNoStructuredResponse
  intentAgent := fun _ _ => ⟨[], .ok none⟩

/-- Witness for C8: concrete faulting and silent capability outcomes degrade
to the apology and clarification responses. -/
theorem every_turn_returns_a_response_witness :
    (orchestratorInvoke faultyIntentOracle ⟨.INTENT, []⟩ "hello" []).1
      = orchestratorErrorResponse
    ∧ (orchestratorInvoke silentIntentOracle ⟨.INTENT, []⟩ "hello" []).1
      = orchestratorClarifyResponse
    ∧ orderAgentInvoke (.error ()) = orderAgentErrorResponse
    ∧ ragAgentInvoke (.error true) = ragAgentTimeoutResponse :=
  ⟨(every_turn_returns_a_response faultyIntentOracle ⟨.INTENT, []⟩ "hello" []
      []).1 rfl rfl,
   (every_turn_returns_a_response silentIntentOracle ⟨.INTENT, []⟩ "hello" []
      []).2.1 rfl rfl,
   (every_turn_returns_a_response faultyIntentOracle ⟨.INTENT, []⟩ "hello" []
      []).2.2.1,
   (every_turn_returns_a_response faultyIntentOracle ⟨.INTENT, []⟩ "hello" []
      []).2.2.2.2.2.1⟩

end EcommerceBot
